import Mathlib

/-
  Verification of drivers/ioexpander/gpio_lower_half.c (NuttX GPIO lower-half
  adapter for I/O expander pins).

  Shallow embedding conventions:
  - C ints that carry error codes become Lean Int; OK = 0 and failures are
    negated errno values, as in the source.
  - Null pointers become Option.none.
  - The external I/O expander (struct ioexpander_dev_s and its operation
    macros IOEXP_READPIN, IOEXP_WRITEPIN, IOEP_ATTACH, IOEP_DETACH) is an
    external collaborator; it is modelled as a record of result functions
    (IoeModel). Each adapter operation also returns the list of expander
    calls it performed, so that call counts and arguments can be stated.
  - DEBUGASSERT at the entry of a function is modelled by returning none
    (the operation has no defined result when the assertion is violated);
    in particular every operation requires the ioe field to be non-null.
  - The uint8_t stores of pin and pintype in the constructor are modelled
    with an explicit mod 256.
-/

namespace GpioLowerHalf

/-- The OK return code of the source, zero. -/
def OK : Int := 0

/-- The errno value EPERM; the source returns its negation. -/
def EPERM : Int := 1

/-- The errno value EIO; the source returns its negation. -/
def EIO : Int := 5

/-- The errno value ENOMEM; the source returns its negation. -/
def ENOMEM : Int := 12

/-- Reference to a gpio_operations_s table. The file has exactly one static
table, g_gplh_ops, holding gplh_read, gplh_write, gplh_attach, gplh_enable. -/
inductive gpio_operations_s where
  | g_gplh_ops
deriving DecidableEq

/-- The publicly visible part of the adapter record (struct gpio_dev_s):
the pin-type tag and the operation-table pointer, both set by the
constructor. A null gp_ops pointer is Option.none. -/
structure gpio_dev_s where
  gp_pintype : Nat
  gp_ops : Option gpio_operations_s

/-- The consumer callback type pin_interrupt_t: takes a pointer to the
generic-interface anchor (struct gpio_dev_s) and returns an int code. -/
abbrev pin_interrupt_t := gpio_dev_s → Int

/-- Model of the external I/O expander collaborator reached through the
ioe pointer: the results its four operations would return.
attachResult is the handle returned by IOEP_ATTACH for a given pinset
(none models a NULL handle), detachRet the int returned by IOEP_DETACH
for a given handle. -/
structure IoeModel where
  readpinRet : Nat → Int
  readpinVal : Nat → Bool
  writepinRet : Nat → Bool → Int
  attachResult : Nat → Option Nat
  detachRet : Nat → Int

/-- The adapter record struct gplh_dev_s: the embedded gpio_dev_s anchor,
the expander-local pin index (uint8_t), the expander pointer ioe, the
interrupt attach handle, and the consumer callback. Null pointers are
Option.none. -/
structure gplh_dev_s where
  gpio : gpio_dev_s
  pin : Nat
  ioe : Option IoeModel
  handle : Option Nat
  callback : Option pin_interrupt_t

/-- Tag for the interrupt handler function pointer passed to IOEP_ATTACH;
the source always passes gplh_handler. -/
inductive HandlerTag where
  | gplhHandler

/-- One call made by the adapter into the expander interface, recording
the operation and the exact arguments the source passes. -/
inductive IoeCall where
  | readpin (pin : Nat)
  | writepin (pin : Nat) (value : Bool)
  | attach (pinset : Nat) (handler : HandlerTag) (ctx : gplh_dev_s)
  | detach (handle : Nat)

/-- gplh_handler: the I/O expander interrupt callback. Asserts that the
context and the stored callback are non-null, then forwards to the
consumer callback, passing the address of the embedded gpio_dev_s anchor,
and returns the callback result. The ioe and pinset arguments are unused
by the source body. -/
def gplh_handler (ioe : IoeModel) (pinset : Nat) (arg : Option gplh_dev_s) :
    Option Int :=
  match arg with
  | none => none
  | some priv =>
    match priv.callback with
    | none => none
    | some cb => some (cb priv.gpio)

/-- gplh_read: asserts ioe non-null, then returns
IOEXP_READPIN(priv->ioe, priv->pin, value) verbatim; value is the out
parameter. The state is not modified. -/
def gplh_read (priv : gplh_dev_s) :
    Option (Int × Bool × gplh_dev_s × List IoeCall) :=
  match priv.ioe with
  | none => none
  | some ioe =>
    some (ioe.readpinRet priv.pin, ioe.readpinVal priv.pin, priv,
          [IoeCall.readpin priv.pin])

/-- gplh_write: asserts ioe non-null, then returns
IOEXP_WRITEPIN(priv->ioe, priv->pin, value) verbatim. The state is not
modified. -/
def gplh_write (priv : gplh_dev_s) (value : Bool) :
    Option (Int × gplh_dev_s × List IoeCall) :=
  match priv.ioe with
  | none => none
  | some ioe =>
    some (ioe.writepinRet priv.pin value, priv,
          [IoeCall.writepin priv.pin value])

/-- gplh_attach: asserts ioe non-null. If a handle is currently attached,
calls IOEP_DETACH on it, discarding the result, and clears the handle;
then stores the new callback (even if null) and returns OK. -/
def gplh_attach (priv : gplh_dev_s) (callback : Option pin_interrupt_t) :
    Option (Int × gplh_dev_s × List IoeCall) :=
  match priv.ioe with
  | none => none
  | some _ =>
    match priv.handle with
    | some h =>
      some (OK, { priv with handle := none, callback := callback },
            [IoeCall.detach h])
    | none =>
      some (OK, { priv with callback := callback }, [])

/-- gplh_enable: asserts ioe non-null. Enabling with no callback returns
-EPERM with no state change; enabling while detached attaches with pinset
(1 << pin), handler gplh_handler and context priv, stores the returned
handle, and returns -EIO if that handle is null; enabling while attached
is a no-op. Disabling while detached is a no-op; disabling while attached
calls IOEP_DETACH, returns its code, and clears the handle regardless. -/
def gplh_enable (priv : gplh_dev_s) (enable : Bool) :
    Option (Int × gplh_dev_s × List IoeCall) :=
  match priv.ioe with
  | none => none
  | some ioe =>
    if enable then
      match priv.callback with
      | none => some (- EPERM, priv, [])
      | some _ =>
        match priv.handle with
        | none =>
          let pinset : Nat := 1 <<< priv.pin
          match ioe.attachResult pinset with
          | some h =>
            some (OK, { priv with handle := some h },
                  [IoeCall.attach pinset HandlerTag.gplhHandler priv])
          | none =>
            some (- EIO, { priv with handle := none },
                  [IoeCall.attach pinset HandlerTag.gplhHandler priv])
        | some _ => some (OK, priv, [])
    else
      match priv.handle with
      | none => some (OK, priv, [])
      | some h =>
        some (ioe.detachRet h, { priv with handle := none },
              [IoeCall.detach h])

/-- gpio_lower_half: the constructor. NPINS and NPINTYPES stand for the
configuration constants CONFIG_IOEXPANDER_NPINS and GPIO_NPINTYPES of the
entry assertion; allocOk models whether kmm_zalloc succeeds and
registerRet the int returned by gpio_pin_register. Returns the int result
of the call together with the registered record (none when the allocation
failed, was freed after a registration failure, or never happened).
The body zero-allocates the record, then sets pin (as uint8_t), the
pintype tag (as uint8_t) and the operation table; it never assigns the
ioe field, which kmm_zalloc leaves null. -/
def gpio_lower_half (NPINS NPINTYPES : Nat) (allocOk : Bool)
    (registerRet : Int) (ioe : Option IoeModel) (pin : Nat) (pintype : Nat)
    (minor : Int) : Option (Int × Option gplh_dev_s) :=
  match ioe with
  | none => none
  | some _ =>
    if pin < NPINS ∧ pintype < NPINTYPES then
      if allocOk then
        let priv : gplh_dev_s :=
          { gpio := { gp_pintype := pintype % 256,
                      gp_ops := some gpio_operations_s.g_gplh_ops },
            pin := pin % 256,
            ioe := none,
            handle := none,
            callback := none }
        if registerRet < 0 then
          some (registerRet, none)
        else
          some (registerRet, some priv)
      else
        some (- ENOMEM, none)
    else
      none

/-- The implicit invariant of the adapter: whenever an interrupt
registration is live (handle non-null), a consumer callback is stored. -/
def Inv (priv : gplh_dev_s) : Prop := priv.handle ≠ none → priv.callback ≠ none

/-- A concrete expander model used for concrete evaluations: every
operation succeeds and IOEP_ATTACH returns handle 1. -/
def env0 : IoeModel where
  readpinRet := fun _ => 0
  readpinVal := fun _ => false
  writepinRet := fun _ _ => 0
  attachResult := fun _ => some 1
  detachRet := fun _ => 0

/-- A concrete consumer callback used for concrete evaluations. -/
def cb0 : pin_interrupt_t := fun _ => 0

/-- A concrete well-formed adapter record: bound to pin 0 of env0, with
cb0 attached and no live interrupt registration. -/
def wpriv : gplh_dev_s where
  gpio := { gp_pintype := 0, gp_ops := some gpio_operations_s.g_gplh_ops }
  pin := 0
  ioe := some env0
  handle := none
  callback := some cb0

/-- C1: the claim states that the constructor, besides setting pin, the
pintype tag and the operation table, stores the given expander reference
in the ioe field of the record. Evaluating the code at a concrete valid
call (a non-null expander, pin 3 of 16, pintype 1 of 3, successful
allocation and registration) shows pin, pintype and the operation table
set as claimed, but the ioe field of the produced record still null: the
source body never assigns priv->ioe, which contradicts the non-null
assertion on ioe that every operation of the same file makes. -/
theorem gpio_lower_half_ioe_left_null :
    (gpio_lower_half 16 3 true 0 (some env0) 3 1 0).map
      (fun r => r.2.map
        (fun p => (p.pin, p.gpio.gp_pintype, p.gpio.gp_ops, p.ioe.isSome)))
      = some (some (3, 1, some gpio_operations_s.g_gplh_ops, false)) := rfl

/-- C2: for every adapter record with a non-null expander pointer, read
and write forward to the expander readpin and writepin operations with
exactly the stored pin index, return the expander result verbatim (error
or success), and leave every field of the record unmodified. -/
theorem gplh_read_write_forward (env : IoeModel) (priv : gplh_dev_s)
    (value : Bool) (hioe : priv.ioe = some env) :
    gplh_read priv =
      some (env.readpinRet priv.pin, env.readpinVal priv.pin, priv,
            [IoeCall.readpin priv.pin]) ∧
    gplh_write priv value =
      some (env.writepinRet priv.pin value, priv,
            [IoeCall.writepin priv.pin value]) := by
  constructor <;> simp [gplh_read, gplh_write, hioe]

/-- Witness for C2 at the concrete record wpriv with value true. -/
theorem gplh_read_write_forward_witness :
    gplh_read wpriv =
      some (env0.readpinRet wpriv.pin, env0.readpinVal wpriv.pin, wpriv,
            [IoeCall.readpin wpriv.pin]) ∧
    gplh_write wpriv true =
      some (env0.writepinRet wpriv.pin true, wpriv,
            [IoeCall.writepin wpriv.pin true]) :=
  gplh_read_write_forward env0 wpriv true rfl

/-- C3: for every adapter record with a null callback field, enabling the
interrupt returns -EPERM, makes no expander call at all (in particular no
attach call), and leaves the record unchanged. -/
theorem gplh_enable_no_callback (env : IoeModel) (priv : gplh_dev_s)
    (hioe : priv.ioe = some env) (hcb : priv.callback = none) :
    gplh_enable priv true = some (- EPERM, priv, []) := by
  simp [gplh_enable, hioe, hcb]

/-- Witness for C3 at the concrete record wpriv with its callback removed. -/
theorem gplh_enable_no_callback_witness :
    gplh_enable { wpriv with callback := none } true =
      some (- EPERM, { wpriv with callback := none }, []) :=
  gplh_enable_no_callback env0 { wpriv with callback := none } rfl rfl

/-- C6: for every adapter record in the Attached state, disabling the
interrupt performs exactly one expander detach call with the stored
handle, clears the handle (transition to Detached) regardless of the
detach result, and returns the detach result verbatim to the caller. -/
theorem gplh_enable_detach (env : IoeModel) (priv : gplh_dev_s) (h : Nat)
    (hioe : priv.ioe = some env) (hh : priv.handle = some h) :
    gplh_enable priv false =
      some (env.detachRet h, { priv with handle := none },
            [IoeCall.detach h]) := by
  simp [gplh_enable, hioe, hh]

/-- Witness for C6 at the concrete record wpriv with handle 5 attached. -/
theorem gplh_enable_detach_witness :
    gplh_enable { wpriv with handle := some 5 } false =
      some (env0.detachRet 5,
            { { wpriv with handle := some 5 } with handle := none },
            [IoeCall.detach 5]) :=
  gplh_enable_detach env0 { wpriv with handle := some 5 } 5 rfl rfl

/-- C9: for every adapter record whose callback is set, the forwarding
handler invokes that callback with the embedded generic-interface anchor
as its argument and returns the callback result unchanged; the result does
not depend on the raw pinset value the expander delivered. -/
theorem gplh_handler_forwards (env : IoeModel) (pinset pinset2 : Nat)
    (priv : gplh_dev_s) (cb : pin_interrupt_t)
    (hcb : priv.callback = some cb) :
    gplh_handler env pinset (some priv) = some (cb priv.gpio) ∧
    gplh_handler env pinset (some priv) =
      gplh_handler env pinset2 (some priv) := by
  constructor <;> simp [gplh_handler, hcb]

/-- Witness for C9 at the concrete record wpriv with callback cb0 and two
distinct pinset values. -/
theorem gplh_handler_forwards_witness :
    gplh_handler env0 5 (some wpriv) = some (cb0 wpriv.gpio) ∧
    gplh_handler env0 5 (some wpriv) = gplh_handler env0 7 (some wpriv) :=
  gplh_handler_forwards env0 5 7 wpriv cb0 rfl

/-- C4: for every adapter record in the Detached state with a callback
set, enabling the interrupt performs exactly one expander attach call
whose pinset has exactly one bit set, at the position of the bound pin,
passing the gplh_handler forwarding handler and the record itself as
context; a non-null returned handle is stored (transition to Attached)
with result OK, a null returned handle yields -EIO with the state still
Detached. -/
theorem gplh_enable_attach_spec (env : IoeModel) (priv : gplh_dev_s)
    (hioe : priv.ioe = some env) (hh : priv.handle = none)
    (hcb : priv.callback ≠ none) :
    (∀ i, (1 <<< priv.pin).testBit i = true ↔ i = priv.pin) ∧
    (∀ hdl, env.attachResult (1 <<< priv.pin) = some hdl →
      gplh_enable priv true =
        some (OK, { priv with handle := some hdl },
              [IoeCall.attach (1 <<< priv.pin) HandlerTag.gplhHandler priv])) ∧
    (env.attachResult (1 <<< priv.pin) = none →
      gplh_enable priv true =
        some (- EIO, { priv with handle := none },
              [IoeCall.attach (1 <<< priv.pin) HandlerTag.gplhHandler priv])) := by
  obtain ⟨c, hc⟩ := Option.ne_none_iff_exists'.mp hcb
  refine ⟨?_, ?_, ?_⟩
  · intro i
    rw [Nat.one_shiftLeft]
    rcases eq_or_ne i priv.pin with h | h
    · subst h
      simp [Nat.testBit_two_pow_self]
    · simp [Nat.testBit_two_pow_of_ne (Ne.symm h), h]
  · intro hdl hres
    simp [gplh_enable, hioe, hh, hc, hres]
  · intro hres
    simp [gplh_enable, hioe, hh, hc, hres]

/-- Witness for C4 at the concrete record wpriv, whose expander model
returns handle 1 from the attach call. -/
theorem gplh_enable_attach_spec_witness :
    gplh_enable wpriv true =
      some (OK, { wpriv with handle := some 1 },
            [IoeCall.attach (1 <<< wpriv.pin) HandlerTag.gplhHandler wpriv]) :=
  (gplh_enable_attach_spec env0 wpriv rfl rfl (by simp [wpriv])).2.1 1 rfl

/-- C5 as stated is refuted by the code: an adapter record in the
Attached state (handle 1) whose callback field is null gets -EPERM from
enable true, not success, because the callback test precedes the handle
test in the source. Such a record is not reachable through the interface
(see the invariant theorem); the amended claim adds the callback
hypothesis. -/
theorem gplh_enable_idempotent_cex :
    ¬ ((gplh_enable { wpriv with handle := some 1, callback := none }
          true).map (fun r => r.1) = some OK) := by
  have h : (gplh_enable { wpriv with handle := some 1, callback := none }
      true).map (fun r => r.1) = some (- EPERM) := rfl
  rw [h]
  decide

/-- C5 amended: enable is idempotent in both directions on records whose
callback is set when attached: in the Attached state with a callback set,
enable true makes zero expander calls, changes no state, and returns OK;
in the Detached state, enable false makes zero expander calls, changes no
state, and returns OK. -/
theorem gplh_enable_idempotent (env : IoeModel) (priv : gplh_dev_s)
    (hioe : priv.ioe = some env) :
    (priv.handle ≠ none → priv.callback ≠ none →
      gplh_enable priv true = some (OK, priv, [])) ∧
    (priv.handle = none → gplh_enable priv false = some (OK, priv, [])) := by
  constructor
  · intro hh hcb
    obtain ⟨hdl, hh2⟩ := Option.ne_none_iff_exists'.mp hh
    obtain ⟨c, hc⟩ := Option.ne_none_iff_exists'.mp hcb
    simp [gplh_enable, hioe, hh2, hc]
  · intro hh
    simp [gplh_enable, hioe, hh]

/-- Witness for the amended C5: wpriv with handle 1 stays unchanged under
enable true, and wpriv (detached) stays unchanged under enable false. -/
theorem gplh_enable_idempotent_witness :
    gplh_enable { wpriv with handle := some 1 } true =
      some (OK, { wpriv with handle := some 1 }, []) ∧
    gplh_enable wpriv false = some (OK, wpriv, []) :=
  ⟨(gplh_enable_idempotent env0 { wpriv with handle := some 1 } rfl).1
      (by simp) (by simp [wpriv]),
   (gplh_enable_idempotent env0 wpriv rfl).2 rfl⟩

/-- C7: for every adapter record with a non-null expander pointer and any
new callback value (null included), attach detaches a live expander
registration first, exactly when one exists, clearing the handle and
swallowing the detach outcome; then it stores the new callback and
returns OK. Two consecutive attach calls from the Detached state make
zero expander detach calls and leave the second callback stored. -/
theorem gplh_attach_spec (priv : gplh_dev_s)
    (cb c1 c2 : Option pin_interrupt_t) (hioe : priv.ioe ≠ none) :
    (∀ h, priv.handle = some h →
      gplh_attach priv cb =
        some (OK, { priv with handle := none, callback := cb },
              [IoeCall.detach h])) ∧
    (priv.handle = none →
      gplh_attach priv cb = some (OK, { priv with callback := cb }, [])) ∧
    (priv.handle = none →
      gplh_attach priv c1 = some (OK, { priv with callback := c1 }, []) ∧
      gplh_attach { priv with callback := c1 } c2 =
        some (OK, { priv with callback := c2 }, [])) := by
  obtain ⟨e, he⟩ := Option.ne_none_iff_exists'.mp hioe
  refine ⟨?_, ?_, ?_⟩
  · intro h hh
    simp [gplh_attach, he, hh]
  · intro hh
    simp [gplh_attach, he, hh]
  · intro hh
    constructor
    · simp [gplh_attach, he, hh]
    · simp [gplh_attach, he, hh]

/-- Witness for C7 at wpriv with handle 5 (live registration, detach
once) and at wpriv (detached, two consecutive attach calls, no detach). -/
theorem gplh_attach_spec_witness :
    gplh_attach { wpriv with handle := some 5 } (some cb0) =
      some (OK,
            { { wpriv with handle := some 5 } with
                handle := none, callback := some cb0 },
            [IoeCall.detach 5]) ∧
    gplh_attach wpriv none = some (OK, { wpriv with callback := none }, []) ∧
    gplh_attach { wpriv with callback := some cb0 } none =
      some (OK, { wpriv with callback := none }, []) :=
  ⟨(gplh_attach_spec { wpriv with handle := some 5 } (some cb0) (some cb0)
      none (by simp [wpriv])).1 5 rfl,
   (gplh_attach_spec wpriv none (some cb0) none (by simp [wpriv])).2.1 rfl,
   ((gplh_attach_spec wpriv none (some cb0) none (by simp [wpriv])).2.2
      rfl).2⟩

/-- C8: construction error handling: an allocation failure makes the
constructor return -ENOMEM, and a registration failure makes it release
the allocation (no record survives) and return the registration error
code unchanged. -/
theorem gpio_lower_half_error_paths (NPINS NPINTYPES : Nat)
    (registerRet : Int) (env : IoeModel) (pin pintype : Nat) (minor : Int)
    (hpin : pin < NPINS) (hpt : pintype < NPINTYPES) :
    gpio_lower_half NPINS NPINTYPES false registerRet (some env) pin pintype
      minor = some (- ENOMEM, none) ∧
    (registerRet < 0 →
      gpio_lower_half NPINS NPINTYPES true registerRet (some env) pin pintype
        minor = some (registerRet, none)) := by
  constructor
  · simp [gpio_lower_half, hpin, hpt]
  · intro hreg
    simp [gpio_lower_half, hpin, hpt, hreg]

/-- Witness for C8 with the registration mechanism failing with -22. -/
theorem gpio_lower_half_error_paths_witness :
    gpio_lower_half 16 3 false (-22) (some env0) 3 1 0 =
      some (- ENOMEM, none) ∧
    gpio_lower_half 16 3 true (-22) (some env0) 3 1 0 =
      some ((-22 : Int), none) :=
  ⟨(gpio_lower_half_error_paths 16 3 (-22) env0 3 1 0 (by decide)
      (by decide)).1,
   (gpio_lower_half_error_paths 16 3 (-22) env0 3 1 0 (by decide)
      (by decide)).2 (by decide)⟩

/-- C10: the record the constructor registers satisfies the invariant
that a non-null handle implies a non-null callback, every operation
preserves that invariant, and under it the assertion of the forwarding
handler (callback set while a registration is live) holds. -/
theorem gplh_inv_preserved :
    (∀ NPINS NPINTYPES allocOk registerRet ioe pin pintype minor ret priv,
      gpio_lower_half NPINS NPINTYPES allocOk registerRet ioe pin pintype
        minor = some (ret, some priv) → Inv priv) ∧
    (∀ priv ret v s tr, gplh_read priv = some (ret, v, s, tr) →
      Inv priv → Inv s) ∧
    (∀ priv value ret s tr, gplh_write priv value = some (ret, s, tr) →
      Inv priv → Inv s) ∧
    (∀ priv cb ret s tr, gplh_attach priv cb = some (ret, s, tr) → Inv s) ∧
    (∀ priv en ret s tr, gplh_enable priv en = some (ret, s, tr) →
      Inv priv → Inv s) ∧
    (∀ priv, Inv priv → priv.handle ≠ none → priv.callback ≠ none) := by
  refine ⟨?_, ?_, ?_, ?_, ?_, ?_⟩
  · intro NPINS NPINTYPES allocOk registerRet ioe pin pintype minor ret priv h
    cases ioe with
    | none => simp [gpio_lower_half] at h
    | some e =>
      simp only [gpio_lower_half] at h
      split_ifs at h
      · simp at h
      · simp only [Option.some.injEq, Prod.mk.injEq] at h
        obtain ⟨-, hp⟩ := h
        obtain rfl := hp
        intro hcontra
        simp at hcontra
      · simp at h
  · intro priv ret v s tr h hInv
    cases hioe : priv.ioe with
    | none => simp [gplh_read, hioe] at h
    | some e =>
      simp [gplh_read, hioe] at h
      obtain ⟨-, -, rfl, -⟩ := h
      exact hInv
  · intro priv value ret s tr h hInv
    cases hioe : priv.ioe with
    | none => simp [gplh_write, hioe] at h
    | some e =>
      simp [gplh_write, hioe] at h
      obtain ⟨-, rfl, -⟩ := h
      exact hInv
  · intro priv cb ret s tr h
    cases hioe : priv.ioe with
    | none => simp [gplh_attach, hioe] at h
    | some e =>
      cases hh : priv.handle with
      | some hd =>
        simp [gplh_attach, hioe, hh] at h
        obtain ⟨-, rfl, -⟩ := h
        intro hcontra
        simp at hcontra
      | none =>
        simp [gplh_attach, hioe, hh] at h
        obtain ⟨-, rfl, -⟩ := h
        intro hcontra
        simp [hh] at hcontra
  · intro priv en ret s tr h hInv
    cases hioe : priv.ioe with
    | none => simp [gplh_enable, hioe] at h
    | some e =>
      cases en with
      | false =>
        cases hh : priv.handle with
        | none =>
          simp [gplh_enable, hioe, hh] at h
          obtain ⟨-, rfl, -⟩ := h
          exact hInv
        | some hd =>
          simp [gplh_enable, hioe, hh] at h
          obtain ⟨-, rfl, -⟩ := h
          intro hcontra
          simp at hcontra
      | true =>
        cases hcb : priv.callback with
        | none =>
          simp [gplh_enable, hioe, hcb] at h
          obtain ⟨-, rfl, -⟩ := h
          exact hInv
        | some c =>
          cases hh : priv.handle with
          | some hd =>
            simp [gplh_enable, hioe, hcb, hh] at h
            obtain ⟨-, rfl, -⟩ := h
            exact hInv
          | none =>
            cases hres : e.attachResult (1 <<< priv.pin) with
            | some hd =>
              simp [gplh_enable, hioe, hcb, hh, hres] at h
              obtain ⟨-, rfl, -⟩ := h
              intro _
              simp [hcb]
            | none =>
              simp [gplh_enable, hioe, hcb, hh, hres] at h
              obtain ⟨-, rfl, -⟩ := h
              intro hcontra
              simp at hcontra
  · intro priv hInv
    exact hInv

/-- Witness for C10: applying the enable preservation component at the
concrete record wpriv establishes the invariant for the attached state it
produces. -/
theorem gplh_inv_preserved_witness :
    Inv { wpriv with handle := some 1 } :=
  gplh_inv_preserved.2.2.2.2.1 wpriv true OK { wpriv with handle := some 1 }
    [IoeCall.attach (1 <<< wpriv.pin) HandlerTag.gplhHandler wpriv] rfl
    (fun _ => by simp [wpriv])

end GpioLowerHalf
